import Mathlib

/-!
Shallow embedding of the chromatic-cli configuration-resolution layer:
`getOptions` (flag validation and run-mode selection) and
`getCommitAndBranch` (commit/branch/slug identity resolution), translated
from `src/bin-src/lib/getOptions.js` (which also contains the `parseArgs`
flag declarations and the `getCommitAndBranch` source).

JavaScript dynamic values are modelled with precise Lean types:
string flags are `Option String` (absent = `undefined`), boolean flags
are `Option Bool`, repeatable flags are `List String`, and the
`trueIfSet` normalization yields `Option SetFlag` (a flag that is either
plain `true` or carries a string).  JS truthiness for each of these is
made explicit.  Strings are manipulated through their character lists so
that every definition is executable and kernel-reducible.
-/

deriving instance DecidableEq for Except

namespace Chromatic

/-! ### JS-style string helpers -/

/-- Truthiness of an optional string: `undefined` and the empty string are falsy. -/
def optTruthy : Option String → Bool
  | some s => !(s == "")
  | none => false

/-- Truthiness of an optional boolean: `undefined` is falsy. -/
def boolTruthy : Option Bool → Bool
  | some b => b
  | none => false

/-- Boolean prefix test on character lists (used to model JS `String.prototype.startsWith`). -/
def listPrefix : List Char → List Char → Bool
  | [], _ => true
  | _ :: _, [] => false
  | a :: as, b :: bs => a = b && listPrefix as bs

/-- Boolean suffix test on character lists (used to model JS `String.prototype.endsWith`). -/
def listSuffix (l₁ l₂ : List Char) : Bool :=
  listPrefix l₁.reverse l₂.reverse

/-- Model of JS `s.startsWith(pre)`. -/
def jsStartsWith (s pre : String) : Bool := listPrefix pre.data s.data

/-- Model of JS `s.endsWith(suf)`. -/
def jsEndsWith (s suf : String) : Bool := listSuffix suf.data s.data

/-- Model of JS `String.prototype.split` with a single-character separator:
`''.split(c)` is `['']`, and separators at the ends produce empty segments. -/
def jsSplit (sep : Char) : List Char → List (List Char)
  | [] => [[]]
  | c :: rest =>
    let r := jsSplit sep rest
    if c = sep then [] :: r
    else
      match r with
      | h :: t => (c :: h) :: t
      | [] => [[c]]

/-- Split a character list on every character satisfying a predicate (the
generalization of `jsSplit` used to tokenize script command lines). -/
def splitPred (p : Char → Bool) : List Char → List (List Char)
  | [] => [[]]
  | c :: rest =>
    let r := splitPred p rest
    if p c then [] :: r
    else
      match r with
      | h :: t => (c :: h) :: t
      | [] => [[c]]

/-- Model of JS `s.split('...')` (used for the `--patch-build` flag): scans left to
right, consuming non-overlapping occurrences of the literal three dots. -/
def splitDots : List Char → List (List Char)
  | '.' :: '.' :: '.' :: rest => [] :: splitDots rest
  | c :: rest =>
    match splitDots rest with
    | h :: t => (c :: h) :: t
    | [] => [[c]]
  | [] => [[]]

/-- Index of the last `'.'` in a character list, if any (for `path.extname`). -/
def lastIndexOfDot : List Char → Option Nat
  | [] => none
  | c :: rest =>
    match lastIndexOfDot rest with
    | some i => some (i + 1)
    | none => if c = '.' then some 0 else none

/-- Model of node's `path.extname`: the extension of the basename, empty when the
basename has no dot or starts with its only dot. -/
def extname (p : String) : String :=
  let base := p.data.foldl (fun acc c => if c = '/' then [] else acc ++ [c]) []
  match lastIndexOfDot base with
  | some i => if i = 0 then "" else String.mk (base.drop i)
  | none => ""

/-! ### Flag and environment model (from the `parseArgs` meow declaration) -/

/-- Result of the source's `trueIfSet` normalization: a string-typed flag given with
an empty value means plain `true`; otherwise the string value is kept. -/
inductive SetFlag where
  | enabled : SetFlag
  | value : String → SetFlag
deriving DecidableEq, Repr

/-- Source helper `trueIfSet`: `'' ↦ true`, other values kept, `undefined` kept. -/
def trueIfSet : Option String → Option SetFlag
  | none => none
  | some s => some (if s = "" then .enabled else .value s)

/-- JS truthiness of a `trueIfSet`-normalized flag. -/
def setFlagTruthy : Option SetFlag → Bool
  | none => false
  | some .enabled => true
  | some (.value s) => !(s == "")

/-- Source helper `takeLast` applied to a repeatable flag (`[]` = flag absent). -/
def takeLast (xs : List String) : Option String := xs.getLast?

/-- Source helper `undefinedIfEmpty ∘ ensureArray`: keep the truthy entries, or
`undefined` when none remain. -/
def undefinedIfEmpty (xs : List String) : Option (List String) :=
  let filtered := xs.filter (fun s => !(s == ""))
  if filtered.isEmpty then none else some filtered

/-- The flags accepted by `parseArgs` (meow declaration), with meow's types:
`type: 'string'` flags are `Option String`, `type: 'boolean'` flags with
`booleanDefault: undefined` are `Option Bool`, `isMultiple` flags are
`List String` (empty = not given), and `interactive` defaults to `true`. -/
structure Flags where
  projectToken : List String := []
  appCode : List String := []
  buildScriptName : Option String := none
  outputDir : List String := []
  storybookBuildDir : List String := []
  allowConsoleErrors : Option Bool := none
  autoAcceptChanges : Option String := none
  exitOnceUploaded : Option String := none
  exitZeroOnChanges : Option String := none
  ignoreLastBuildOnBranch : Option String := none
  only : Option String := none
  onlyChanged : Option String := none
  untraced : List String := []
  externals : List String := []
  branchName : Option String := none
  patchBuild : Option String := none
  preserveMissing : Option Bool := none
  skip : Option String := none
  storybookBaseDir : Option String := none
  zip : Option Bool := none
  ci : Option Bool := none
  debug : Option Bool := none
  diagnostics : Option Bool := none
  dryRun : Option Bool := none
  junitReport : Option String := none
  list : Option Bool := none
  interactive : Bool := true
  doNotStart : Option Bool := none
  exec : Option String := none
  scriptName : Option String := none
  storybookPort : Option String := none
  storybookUrl : Option String := none
  storybookHttps : Option Bool := none
  storybookCert : Option String := none
  storybookKey : Option String := none
  storybookCa : Option String := none
deriving DecidableEq, Repr

/-- The environment values read by `getOptions`: the `env` record fields it uses,
the `process.env.CI` variable, `HOME` for `resolveHomeDir`, and
`process.stdout.isTTY` (modelled as a boolean input). -/
structure CliEnv where
  CHROMATIC_PROJECT_TOKEN : Option String := none
  CHROMATIC_CREATE_TUNNEL : Option String := none
  CI : Option String := none
  HOME : Option String := none
  stdoutIsTTY : Bool := true
deriving DecidableEq, Repr

/-- A `package.json` script table, as the ordered key/value pairs that
`Object.entries` would produce (keys are unique in a JS object). -/
abbrev Scripts := List (String × String)

/-- Lookup `scripts[name]`. -/
def lookupScript (scripts : Scripts) (name : String) : Option String :=
  (scripts.find? (fun p => p.1 == name)).map (fun p => p.2)

/-- JS truthiness of `scripts[name]` (missing or empty command is falsy). -/
def scriptTruthy (scripts : Scripts) (name : String) : Bool :=
  optTruthy (lookupScript scripts name)

/-! ### The `options` record (source lines 38-81) -/

/-- The `options` object built at the top of `getOptions` (the unused
`originalArgv` passthrough is omitted). -/
structure Options where
  projectToken : Option String := none
  only : Option String := none
  onlyChanged : Option SetFlag := none
  untraced : Option (List String) := none
  externals : Option (List String) := none
  list : Option Bool := none
  fromCI : Bool := false
  skip : Option SetFlag := none
  dryRun : Bool := false
  verbose : Bool := false
  interactive : Bool := true
  junitReport : Option SetFlag := none
  zip : Option Bool := none
  autoAcceptChanges : Option SetFlag := none
  exitZeroOnChanges : Option SetFlag := none
  exitOnceUploaded : Option SetFlag := none
  ignoreLastBuildOnBranch : Option String := none
  preserveMissingSpecs : Bool := false
  buildScriptName : Option String := none
  outputDir : Option String := none
  allowConsoleErrors : Option Bool := none
  scriptName : Option SetFlag := none
  exec : Option String := none
  noStart : Bool := false
  https : Option Bool := none
  cert : Option String := none
  key : Option String := none
  ca : Option String := none
  port : Option String := none
  storybookBuildDir : Option String := none
  storybookBaseDir : Option String := none
  storybookUrl : Option String := none
  createTunnel : Bool := true
  ownerName : Option String := none
  branchName : String := ""
  patchHeadRef : Option String := none
  patchBaseRef : Option String := none
deriving DecidableEq, Repr

/-- Source line 36: `(flags.branchName || '').split(':').reverse()` destructured
into `[branchName, ownerName]`. -/
def branchSplit (s : String) : String × Option String :=
  let parts := ((jsSplit ':' s.data).map String.mk).reverse
  (parts.headD "", parts[1]?)

/-- Source line 35: `(flags.patchBuild || '').split('...').filter(Boolean)`
destructured into `[patchHeadRef, patchBaseRef]`. -/
def patchSplit (s : String) : Option String × Option String :=
  let parts := ((splitDots s.data).map String.mk).filter (fun x => !(x == ""))
  (parts[0]?, parts[1]?)

/-- Source line 39: `takeLast(flags.projectToken || flags.appCode) ||
env.CHROMATIC_PROJECT_TOKEN` (an absent repeatable flag is `undefined`, so the
`appCode` alias is consulted when `projectToken` was not given). -/
def resolveProjectToken (flags : Flags) (env : CliEnv) : Option String :=
  let fromFlags :=
    if flags.projectToken.isEmpty then takeLast flags.appCode else takeLast flags.projectToken
  if optTruthy fromFlags then fromFlags else env.CHROMATIC_PROJECT_TOKEN

/-- The `options` record construction, source lines 33-81. -/
def mkOptions (flags : Flags) (env : CliEnv) : Options :=
  let fromCI := boolTruthy flags.ci || optTruthy env.CI
  let patch := patchSplit (flags.patchBuild.getD "")
  let branch := branchSplit (flags.branchName.getD "")
  { projectToken := resolveProjectToken flags env
    only := flags.only
    onlyChanged := trueIfSet flags.onlyChanged
    untraced := undefinedIfEmpty flags.untraced
    externals := undefinedIfEmpty flags.externals
    list := flags.list
    fromCI := fromCI
    skip := trueIfSet flags.skip
    dryRun := boolTruthy flags.dryRun
    verbose := boolTruthy flags.debug
    interactive :=
      !boolTruthy flags.debug && !fromCI && flags.interactive && env.stdoutIsTTY
    junitReport := trueIfSet flags.junitReport
    zip := flags.zip
    autoAcceptChanges := trueIfSet flags.autoAcceptChanges
    exitZeroOnChanges := trueIfSet flags.exitZeroOnChanges
    exitOnceUploaded := trueIfSet flags.exitOnceUploaded
    ignoreLastBuildOnBranch := flags.ignoreLastBuildOnBranch
    preserveMissingSpecs := boolTruthy flags.preserveMissing || optTruthy flags.only
    buildScriptName := flags.buildScriptName
    outputDir := takeLast flags.outputDir
    allowConsoleErrors := flags.allowConsoleErrors
    scriptName := trueIfSet flags.scriptName
    exec := flags.exec
    noStart := boolTruthy flags.doNotStart
    https := flags.storybookHttps
    cert := flags.storybookCert
    key := flags.storybookKey
    ca := flags.storybookCa
    port := flags.storybookPort
    storybookBuildDir := takeLast flags.storybookBuildDir
    storybookBaseDir := flags.storybookBaseDir
    storybookUrl := flags.storybookUrl
    createTunnel :=
      !optTruthy flags.storybookUrl && !(env.CHROMATIC_CREATE_TUNNEL == some "false")
    ownerName := branch.2
    branchName := branch.1
    patchHeadRef := patch.1
    patchBaseRef := patch.2 }

/-! ### Validation (source lines 83-158) -/

/-- The categorized fatal errors `getOptions` can throw, with the payloads the
corresponding message constructors receive. -/
inductive OptionsError where
  | missingProjectToken : OptionsError
  | invalidPatchBuild : OptionsError
  | duplicatePatchBuild : OptionsError
  | invalidOnly : OptionsError
  | invalidSingularOptions : List String → OptionsError
  | dependentOption : String → String → OptionsError
  | invalidExitOnceUploaded : OptionsError
  | incompatibleOptions : List String → OptionsError
  | invalidReportPath : OptionsError
  | missingBuildScriptName : String → OptionsError
  | invalidOnlyChanged : OptionsError
  | missingStorybookPort : OptionsError
  | missingScriptName : String → OptionsError
  | unknownStorybookPort : String → OptionsError
deriving DecidableEq, Repr

/-- A character of the JS regex class `[\w*]` (ASCII word character or star). -/
def isWordOrStar (c : Char) : Bool := c.isAlphanum || c = '_' || c = '*'

/-- The test `/[\w*]\/[\w*]/.test(s)` from source line 101: an unanchored search
for a word-or-star character, a slash, and a word-or-star character. -/
def hasOnlyPattern : List Char → Bool
  | c1 :: rest =>
    (match rest with
     | s :: c2 :: _ => isWordOrStar c1 && s = '/' && isWordOrStar c2
     | _ => false) || hasOnlyPattern rest
  | [] => false

/-- The `--only` regex test applied to a flag value. -/
def onlyRegexTest (s : String) : Bool := hasOnlyPattern s.data

/-- The spec's literal two-segment reading of the `only` shape, for comparison
with the source's test: the whole value is two nonempty all-word-or-star
segments separated by a single slash. -/
def specOnlyShape (s : String) : Bool :=
  match jsSplit '/' s.data with
  | [a, b] => !a.isEmpty && !b.isEmpty && a.all isWordOrStar && b.all isWordOrStar
  | _ => false

/-- Source line 140-142: `if (storybookUrl) noStart = true`. -/
def noStartForced (o : Options) : Bool := optTruthy o.storybookUrl || o.noStart

/-- The five mutually exclusive run-mode selectors of source lines 114-120, each
paired with its flag display name and its JS truthiness in `options`. -/
def singularTruthy (o : Options) : List (String × Bool) :=
  [("--build-script-name", optTruthy o.buildScriptName),
   ("--script-name", setFlagTruthy o.scriptName),
   ("--exec", optTruthy o.exec),
   ("--storybook-url", optTruthy o.storybookUrl),
   ("--storybook-build-dir", optTruthy o.storybookBuildDir)]

/-- Source line 121: the singular option names whose `options` value is truthy. -/
def foundSingularOpts (o : Options) : List String :=
  ((singularTruthy o).filter (fun p => p.2)).map (fun p => p.1)

/-- Source line 156: a string-valued junit report path whose extension is not `.xml`. -/
def junitBad (o : Options) : Bool :=
  match o.junitReport with
  | some (.value s) => !(extname s == ".xml")
  | _ => false

/-- First-failure semantics over an ordered rule list: the error of the first
rule whose condition holds, `none` when every condition is false. -/
def firstSome : List (Bool × OptionsError) → Option OptionsError
  | [] => none
  | (b, e) :: rest => if b then some e else firstSome rest

/-- The ordered validation rules of source lines 88-158, each as the pair of its
firing condition and the error it throws. -/
def validationRules (o : Options) (flags : Flags) : List (Bool × OptionsError) :=
  [(!optTruthy o.projectToken, .missingProjectToken),
   (optTruthy flags.patchBuild && (!optTruthy o.patchHeadRef || !optTruthy o.patchBaseRef),
    .invalidPatchBuild),
   (optTruthy flags.patchBuild && o.patchHeadRef == o.patchBaseRef, .duplicatePatchBuild),
   (optTruthy flags.only && !onlyRegexTest (flags.only.getD ""), .invalidOnly),
   (decide ((foundSingularOpts o).length > 1), .invalidSingularOptions (foundSingularOpts o)),
   (optTruthy o.only && setFlagTruthy o.onlyChanged,
    .invalidSingularOptions ["--only", "--only-changed"]),
   (o.untraced.isSome && !setFlagTruthy o.onlyChanged,
    .dependentOption "--untraced" "--only-changed"),
   (o.externals.isSome && !setFlagTruthy o.onlyChanged,
    .dependentOption "--externals" "--only-changed"),
   (noStartForced o && setFlagTruthy o.exitOnceUploaded, .invalidExitOnceUploaded),
   (setFlagTruthy o.scriptName && setFlagTruthy o.exitOnceUploaded, .invalidExitOnceUploaded),
   (setFlagTruthy o.junitReport && setFlagTruthy o.exitOnceUploaded,
    .incompatibleOptions ["--junit-report", "--exit-once-uploaded"]),
   (junitBad o, .invalidReportPath)]

/-- The ordered validation stage, source lines 88-158: the first failing rule
produces its error, `none` means validation passed. -/
def validate (o : Options) (flags : Flags) : Option OptionsError :=
  firstSome (validationRules o flags)

/-! ### URL handling (source lines 216-223, node `url.parse`/`format`) -/

/-- The pieces of a parsed URL the suffix logic touches: everything before the
path, and the `pathname` (node's `url.parse` reports `/` for a URL with no
path; a scheme-less input is all pathname). -/
structure ParsedUrl where
  base : String
  pathname : String
deriving DecidableEq, Repr

/-- Split a character list at the first `://`, yielding the scheme and the rest. -/
def splitScheme : List Char → Option (List Char × List Char)
  | ':' :: '/' :: '/' :: rest => some ([], rest)
  | c :: rest => (splitScheme rest).map (fun p => (c :: p.1, p.2))
  | [] => none

/-- Model of node's legacy `url.parse` for the query-less URLs this resolver
builds and receives. -/
def parseUrl (s : String) : ParsedUrl :=
  match splitScheme s.data with
  | none => { base := "", pathname := s }
  | some (scheme, rest) =>
    let hostPath := rest.span (fun c => !(c = '/'))
    { base := String.mk (scheme ++ ':' :: '/' :: '/' :: hostPath.1)
      pathname := if hostPath.2.isEmpty then "/" else String.mk hostPath.2 }

/-- Source lines 217-223: append `iframe.html` to the pathname unless it already
ends with it, inserting a slash when needed. -/
def fixPathname (p : String) : String :=
  if jsEndsWith p "iframe.html" then p
  else if jsEndsWith p "/" then p ++ "iframe.html"
  else p ++ "/" ++ "iframe.html"

/-- Parse the Storybook URL, fix its pathname, and reassemble (`parsedUrl.format()`). -/
def formatUrl (s : String) : String :=
  let u := parseUrl s
  u.base ++ fixPathname u.pathname

/-! ### Run-mode selection (source lines 161-232) -/

/-- The https credential bundle of source lines 107-111 and 197-203. -/
structure HttpsConfig where
  cert : Option String := none
  key : Option String := none
  ca : Option String := none
deriving DecidableEq, Repr

/-- The successful result: the `options` record spread together with the derived
`useTunnel`, the final `url` (absent on the build-mode returns of lines 163 and
174, which do not set one), and the resolved https credential bundle of the
server path (the build-mode returns leave the raw `storybookHttps` flag in
`toOptions.https`). -/
structure ResolvedOptions extends Options where
  useTunnel : Bool := true
  url : Option String := none
  httpsConfig : Option HttpsConfig := none
deriving DecidableEq, Repr

/-- Modelled from the spec: the helper `getStorybookConfiguration` (its source
file is not under `src/`) which, from a script's command-line text,
"opportunistically parse[s]" flag values: the command is split on whitespace,
`=` and quote characters, and the token following the long flag name (or,
failing that, the short name) is returned. -/
def getStorybookConfiguration (script : String) (shortName : String)
    (longName : Option String) : Option String :=
  let isSep : Char → Bool := fun c =>
    c = ' ' || c = '\t' || c = '\n' || c = '=' || c = '\'' || c = '"'
  let parts :=
    ((splitPred isSep script.data).map String.mk).filter (fun s => !(s == ""))
  let idx :=
    match longName with
    | some l =>
      match parts.indexOf? l with
      | some i => some i
      | none => parts.indexOf? shortName
    | none => parts.indexOf? shortName
  match idx with
  | some i => parts[i + 1]?
  | none => none

/-- Source lines 166-172: resolve the build-script name when in build mode with
no static directory: the explicit flag wins; otherwise default to
`build-storybook`, and when the manifest lacks a truthy script under that name,
adopt the key of the first script whose command starts with `build-storybook`. -/
def resolveBuildScriptName (o : Options) (scripts : Scripts) : String :=
  match o.buildScriptName with
  | some s => s
  | none =>
    if scriptTruthy scripts "build-storybook" then "build-storybook"
    else
      match scripts.find? (fun p => jsStartsWith p.2 "build-storybook") with
      | some p => if p.1 == "" then "build-storybook" else p.1
      | none => "build-storybook"

/-- Source line 24-25 `resolveHomeDir`: expand a leading `~` against `HOME`. -/
def resolveHomeDir (env : CliEnv) (fp : String) : String :=
  if !(fp == "") && jsStartsWith fp "~" then
    let rest := String.mk (fp.data.drop 1)
    (if jsStartsWith rest "/" then env.HOME.getD "" ++ rest
     else env.HOME.getD "" ++ "/" ++ rest)
  else fp

/-- Source lines 197-203: keep an explicit https bundle, else infer one from the
script's `--https` flag, expanding the cert/key/ca paths. -/
def inferHttps (env : CliEnv) (h : Option HttpsConfig) (script : String) :
    Option HttpsConfig :=
  match h with
  | some c => some c
  | none =>
    if optTruthy (getStorybookConfiguration script "--https" none) then
      some { cert := (getStorybookConfiguration script "--ssl-cert" none).map (resolveHomeDir env)
             key := (getStorybookConfiguration script "--ssl-key" none).map (resolveHomeDir env)
             ca := (getStorybookConfiguration script "--ssl-ca" none).map (resolveHomeDir env) }
    else none

/-- Source line 213: `scheme://localhost:port`. -/
def localUrl (https : Option HttpsConfig) (port : String) : String :=
  (if https.isSome then "https" else "http") ++ "://localhost:" ++ port

/-- The common final return of lines 225-232: spread `options` with the computed
`noStart`, `useTunnel: true`, the resolved https bundle, the formatted URL and
the (possibly defaulted) script name. -/
def finalizeServer (o : Options) (noStart : Bool) (https : Option HttpsConfig)
    (rawUrl : String) (sn : Option SetFlag) : ResolvedOptions :=
  { toOptions := { o with noStart := noStart, scriptName := sn }
    useTunnel := true
    httpsConfig := https
    url := some (formatUrl rawUrl) }

/-- The run-mode decision tree, source lines 161-232 (after validation). -/
def selectMode (o : Options) (scripts : Scripts) (env : CliEnv) :
    Except OptionsError ResolvedOptions :=
  let noStart := noStartForced o
  let https0 : Option HttpsConfig :=
    if boolTruthy o.https then some { cert := o.cert, key := o.key, ca := o.ca } else none
  if !setFlagTruthy o.scriptName && !optTruthy o.exec && !noStart &&
      !optTruthy o.storybookUrl && !optTruthy o.port then
    if optTruthy o.storybookBuildDir then
      .ok { toOptions := { o with noStart := true }, useTunnel := false }
    else
      let bsn := resolveBuildScriptName o scripts
      if !(bsn == "") && scriptTruthy scripts bsn then
        .ok { toOptions := { o with noStart := true, buildScriptName := some bsn }
              useTunnel := false }
      else .error (.missingBuildScriptName bsn)
  else if setFlagTruthy o.onlyChanged then .error .invalidOnlyChanged
  else if optTruthy o.storybookUrl then
    .ok (finalizeServer o noStart https0 (o.storybookUrl.getD "") o.scriptName)
  else if optTruthy o.exec && !optTruthy o.port then .error .missingStorybookPort
  else if !optTruthy o.exec && (!optTruthy o.port || !noStart) then
    let sName : String :=
      match o.scriptName with
      | some (.value s) => s
      | _ => "storybook"
    if !scriptTruthy scripts sName then .error (.missingScriptName sName)
    else
      let script := (lookupScript scripts sName).getD ""
      let https1 := inferHttps env https0 script
      let port1 :=
        if optTruthy o.port then o.port
        else getStorybookConfiguration script "-p" (some "--port")
      if !optTruthy port1 then .error (.unknownStorybookPort sName)
      else
        .ok (finalizeServer o noStart https1 (localUrl https1 (port1.getD ""))
          (some (.value sName)))
  else
    .ok (finalizeServer o noStart https0 (localUrl https0 (o.port.getD "")) o.scriptName)

/-- The full options resolver: build the `options` record, run the ordered
validation, then select the run mode. -/
def getOptions (flags : Flags) (env : CliEnv) (scripts : Scripts) :
    Except OptionsError ResolvedOptions :=
  let o := mkOptions flags env
  match validate o flags with
  | some e => .error e
  | none => selectMode o scripts env

/-! ### Commit/branch identity resolution (`getCommitAndBranch`) -/

/-- The environment variables read by `getCommitAndBranch`. -/
structure CiEnv where
  TRAVIS_EVENT_TYPE : Option String := none
  TRAVIS_PULL_REQUEST_SLUG : Option String := none
  TRAVIS_REPO_SLUG : Option String := none
  TRAVIS_PULL_REQUEST_SHA : Option String := none
  TRAVIS_PULL_REQUEST_BRANCH : Option String := none
  GITHUB_ACTIONS : Option String := none
  GITHUB_EVENT_NAME : Option String := none
  GITHUB_REPOSITORY : Option String := none
  GITHUB_BASE_REF : Option String := none
  GITHUB_HEAD_REF : Option String := none
  GITHUB_SHA : Option String := none
  CHROMATIC_SHA : Option String := none
  CHROMATIC_BRANCH : Option String := none
  CHROMATIC_SLUG : Option String := none
  HEAD : Option String := none
  GERRIT_BRANCH : Option String := none
  GITHUB_REF : Option String := none
  CI_BRANCH : Option String := none
  CI : Option String := none
  REPOSITORY_URL : Option String := none
deriving DecidableEq, Repr

/-- A commit record returned by the `getCommit` git query (only the sha is
consumed by the identity logic; the remaining metadata is passed through). -/
structure Commit where
  sha : String
deriving DecidableEq, Repr

/-- The read-only git queries `getCommitAndBranch` performs, supplied as inputs:
the current commit (`getCommit()` with no ref, assumed to resolve), the
ref-specific lookup `getCommit(ref)` where `none` models a rejected promise
(always caught by the source), the current branch, and `hasPreviousCommit()`. -/
structure GitQueries where
  headCommit : Commit
  commitFor : Option String → Option Commit
  branch : String
  hasPreviousCommit : Bool

/-- The override values passed in from the resolved options. -/
structure IdentityOverrides where
  branchName : Option String := none
  patchBaseRef : Option String := none
  ci : Option Bool := none
deriving DecidableEq, Repr

/-- The relevant fields of the `env-ci` detection result (an external
collaborator, supplied as input). -/
structure EnvCiInfo where
  isCi : Bool := false
  service : Option String := none
  prBranch : Option String := none
  branch : Option String := none
  commit : Option String := none
  slug : Option String := none
deriving DecidableEq, Repr

/-- The fatal errors `getCommitAndBranch` can throw. -/
inductive GitError where
  | gitOneCommit : Bool → GitError
  | missingTravisInfo : GitError
  | missingGitHubInfo : GitError
  | forksUnsupported : GitError
deriving DecidableEq, Repr

/-- The identity record returned on success (the commit sha may be absent when a
lookup fell back to an undefined CI-detected sha). -/
structure CommitIdentity where
  commit : Option String
  branch : String
  slug : Option String
  isTravisPrBuild : Bool
  fromCI : Bool
  ciService : Option String
deriving DecidableEq, Repr

/-- Source line 345 `notHead`: a branch value that is truthy and not the
detached-HEAD placeholder, else nothing. -/
def notHead : Option String → Option String
  | some s => if !(s == "") && !(s == "HEAD") then some s else none
  | none => none

/-- Model of `await getCommit(ref).catch(err => ({ sha: fallback }))`: the sha of
the looked-up commit, or the fallback sha when the lookup fails. -/
def lookupCommitSha (q : GitQueries) (r : Option String) (fallbackSha : Option String) :
    Option String :=
  match q.commitFor r with
  | some c => some c.sha
  | none => fallbackSha

/-- Source line 369: both first-party environment variables are set. -/
def isFromEnvVariable (env : CiEnv) : Bool :=
  optTruthy env.CHROMATIC_SHA && optTruthy env.CHROMATIC_BRANCH

/-- The provider-specific correction block, source lines 378-426: from the
initial commit/branch, produce the (commit sha, branch, slug) triple after the
first-party env-variable path, the Travis PR path, or the GitHub PR path. -/
def providerStep (env : CiEnv) (q : GitQueries) (ov : IdentityOverrides) :
    Except GitError (Option String × String × Option String) :=
  let commit0 : Option String := some q.headCommit.sha
  let branch0 : String :=
    ((notHead ov.branchName).getD ((notHead ov.patchBaseRef).getD q.branch))
  if isFromEnvVariable env then
    .ok (lookupCommitSha q env.CHROMATIC_SHA env.CHROMATIC_SHA,
      env.CHROMATIC_BRANCH.getD "", env.CHROMATIC_SLUG)
  else if env.TRAVIS_EVENT_TYPE == some "pull_request" then
    if !optTruthy env.TRAVIS_PULL_REQUEST_SHA || !optTruthy env.TRAVIS_PULL_REQUEST_BRANCH then
      .error .missingTravisInfo
    else
      .ok (lookupCommitSha q env.TRAVIS_PULL_REQUEST_SHA env.TRAVIS_PULL_REQUEST_SHA,
        env.TRAVIS_PULL_REQUEST_BRANCH.getD "", env.TRAVIS_PULL_REQUEST_SLUG)
  else if env.GITHUB_EVENT_NAME == some "pull_request" then
    if !optTruthy env.GITHUB_HEAD_REF || !optTruthy env.GITHUB_SHA then
      .error .missingGitHubInfo
    else if env.GITHUB_BASE_REF == env.GITHUB_HEAD_REF then .error .forksUnsupported
    else
      .ok (lookupCommitSha q env.GITHUB_HEAD_REF env.GITHUB_SHA,
        env.GITHUB_HEAD_REF.getD "", env.GITHUB_REPOSITORY)
  else .ok (commit0, branch0, none)

/-- The secondary provider-agnostic branch fallback chain of source lines
446-453, in its fixed priority order. -/
def fallbackBranch (env : CiEnv) (ci : EnvCiInfo) : Option String :=
  [ci.prBranch, ci.branch, env.HEAD, env.GERRIT_BRANCH, env.GITHUB_REF,
   env.CI_BRANCH].findSome? notHead

/-- Source lines 463-467: strip a literal `origin/` prefix when the strip
applies. -/
def stripOriginIf (apply : Bool) (b : String) : String :=
  if apply && jsStartsWith b "origin/" then String.mk (b.data.drop 7) else b

/-- The `getCommitAndBranch` identity resolver, source lines 347-490, with the
git queries and the `env-ci` detection supplied as inputs. -/
def getCommitAndBranch (env : CiEnv) (ov : IdentityOverrides) (q : GitQueries)
    (ci : EnvCiInfo) : Except GitError CommitIdentity :=
  if !q.hasPreviousCommit then
    .error (.gitOneCommit (env.GITHUB_ACTIONS == some "true"))
  else
    match providerStep env q ov with
    | .error e => .error e
    | .ok (commit1, branch1, slug1) =>
      let slug2 := if optTruthy slug1 then slug1 else ci.slug
      let detached := (notHead (some branch1)).isNone
      let commit2 :=
        if detached then lookupCommitSha q ci.commit ci.commit else commit1
      let branch2 :=
        if detached then (fallbackBranch env ci).getD "HEAD" else branch1
      let fromCI := ci.isCi || boolTruthy ov.ci || optTruthy env.CI ||
        optTruthy env.REPOSITORY_URL || optTruthy env.GITHUB_REPOSITORY
      let strip := !optTruthy ov.branchName && !isFromEnvVariable env
      let branch3 := stripOriginIf strip branch2
      .ok { commit := commit2
            branch := branch3
            slug := slug2
            isTravisPrBuild := env.TRAVIS_EVENT_TYPE == some "pull_request"
            fromCI := fromCI
            ciService := ci.service }

/-! ### Concrete instances used by the verification theorems -/

/-- The run-mode condition of source line 161, negated: some selector among
server-script, exec, noStart (possibly forced by an external URL), external
URL, or port demands the server/URL path. -/
def serverPathCond (o : Options) : Bool :=
  setFlagTruthy o.scriptName || optTruthy o.exec || noStartForced o ||
    optTruthy o.storybookUrl || optTruthy o.port

/-- Counterexample input for C1: only a token and a static build directory. -/
def c1flags : Flags := { projectToken := ["t"], storybookBuildDir := ["dist"] }

/-- Second counterexample input for C1: already-running server via noStart and a
port, with none of the five selector flags set. -/
def c1flagsNoSelector : Flags :=
  { projectToken := ["t"], doNotStart := some true, storybookPort := some "7007" }

/-- Witness input for C1's amended theorem. -/
def c1wflags : Flags := { projectToken := ["t"], storybookUrl := some "http://example.com/sb" }

/-- Witness result for C1's amended theorem. -/
def c1wres : ResolvedOptions :=
  match getOptions c1wflags {} [] with
  | .ok r => r
  | .error _ => {}

/-- Witness input for C2's universal part. -/
def c2wflags : Flags := { projectToken := ["t"], storybookUrl := some "http://host/sb" }

/-- Witness result for C2's universal part. -/
def c2wres : ResolvedOptions :=
  match getOptions c2wflags {} [] with
  | .ok r => r
  | .error _ => {}

/-- Witness input for C10. -/
def c10wflags : Flags := { projectToken := ["t"], storybookBuildDir := ["out"] }

/-- Witness result for C10. -/
def c10wres : ResolvedOptions :=
  match getOptions c10wflags {} [] with
  | .ok r => r
  | .error _ => {}

/-- Witness git queries for C8: a repository with no prior commit. -/
def c8wq : GitQueries :=
  { headCommit := { sha := "a" }, commitFor := fun _ => none, branch := "main",
    hasPreviousCommit := false }

/-- C5 counterexample input. -/
def c5ceflags : Flags := { projectToken := ["t"], branchName := some "o:x:b" }

/-- Witness input for C5's amended theorem. -/
def c5wflags : Flags := { projectToken := ["t"], branchName := some "owner:branch" }

/-- Witness input for C3's amended theorem. -/
def c3wflags : Flags := { projectToken := ["t"], only := some "nx" }

/-- Witness input for C4: two run-mode selectors at once. -/
def c4wflags : Flags := { projectToken := ["t"], exec := some "cmd", storybookUrl := some "http://u" }

/-- Witness input for C6. -/
def c6wflags : Flags := { projectToken := ["t"] }

/-- Witness manifest for C6. -/
def c6wscripts : Scripts := [("build-storybook", "build-storybook -o d")]

/-- C9 counterexample git queries: detached HEAD with one prior commit. -/
def c9ceq : GitQueries :=
  { headCommit := { sha := "c0" }, commitFor := fun _ => none, branch := "HEAD",
    hasPreviousCommit := true }

/-- Witness git queries for C9's amended theorem. -/
def c9wq : GitQueries :=
  { headCommit := { sha := "c0" }, commitFor := fun _ => none, branch := "HEAD",
    hasPreviousCommit := true }

/-- Witness CI detection for C9's amended theorem. -/
def c9wci : EnvCiInfo := { prBranch := some "feature" }

/-! ### Helper lemmas -/

theorem listPrefix_iff (a b : List Char) : listPrefix a b = true ↔ ∃ r, b = a ++ r := by
  induction a generalizing b with
  | nil => simp [listPrefix]
  | cons c a ih =>
    cases b with
    | nil => simp [listPrefix]
    | cons d b' =>
      simp only [listPrefix, Bool.and_eq_true, decide_eq_true_eq, ih, List.cons_append,
        List.cons.injEq]
      constructor
      · rintro ⟨rfl, r, rfl⟩
        exact ⟨r, rfl, rfl⟩
      · rintro ⟨r, rfl, rfl⟩
        exact ⟨rfl, r, rfl⟩

theorem listSuffix_iff (a b : List Char) : listSuffix a b = true ↔ ∃ r, b = r ++ a := by
  unfold listSuffix
  rw [listPrefix_iff]
  constructor
  · rintro ⟨r, hr⟩
    refine ⟨r.reverse, ?_⟩
    have h2 := congrArg List.reverse hr
    simpa using h2
  · rintro ⟨r, rfl⟩
    exact ⟨r.reverse, by simp⟩

theorem jsEndsWith_append (a b suf : String) (h : jsEndsWith b suf = true) :
    jsEndsWith (a ++ b) suf = true := by
  unfold jsEndsWith at *
  rw [listSuffix_iff] at *
  obtain ⟨r, hr⟩ := h
  exact ⟨a.data ++ r, by simp [hr, List.append_assoc]⟩

theorem fixPathname_endsWith (p : String) : jsEndsWith (fixPathname p) "iframe.html" = true := by
  unfold fixPathname
  split
  · assumption
  · split
    · exact jsEndsWith_append p "iframe.html" "iframe.html" (by decide)
    · exact jsEndsWith_append (p ++ "/") "iframe.html" "iframe.html" (by decide)

theorem formatUrl_endsWith (s : String) : jsEndsWith (formatUrl s) "iframe.html" = true :=
  jsEndsWith_append _ _ _ (fixPathname_endsWith _)

theorem firstSome_none_iff (l : List (Bool × OptionsError)) :
    firstSome l = none ↔ ∀ p ∈ l, p.1 = false := by
  induction l with
  | nil => simp [firstSome]
  | cons p rest ih =>
    obtain ⟨b, e⟩ := p
    cases b <;> simp [firstSome, ih]

theorem not_singular_of_validate_none {o : Options} {f : Flags} (h : validate o f = none) :
    (foundSingularOpts o).length ≤ 1 := by
  rw [validate, firstSome_none_iff] at h
  have h5 := h (decide ((foundSingularOpts o).length > 1),
    .invalidSingularOptions (foundSingularOpts o)) (by simp [validationRules])
  simpa using h5

theorem getOptions_ok_fields {f : Flags} {e : CliEnv} {s : Scripts} {r : ResolvedOptions}
    (h : getOptions f e s = Except.ok r) :
    r.interactive = (mkOptions f e).interactive ∧ r.fromCI = (mkOptions f e).fromCI ∧
      r.verbose = (mkOptions f e).verbose := by
  simp only [getOptions] at h
  split at h
  · exact Except.noConfusion h
  · simp only [selectMode] at h
    repeat' split at h
    all_goals
      first
        | exact Except.noConfusion h
        | (injection h with h2; subst h2; exact ⟨rfl, rfl, rfl⟩)

theorem buildCond_iff (o : Options) :
    (!setFlagTruthy o.scriptName && !optTruthy o.exec && !noStartForced o &&
      !optTruthy o.storybookUrl && !optTruthy o.port) = !serverPathCond o := by
  unfold serverPathCond
  cases setFlagTruthy o.scriptName <;> cases optTruthy o.exec <;> cases noStartForced o <;>
    cases optTruthy o.storybookUrl <;> cases optTruthy o.port <;> rfl

/-- C1 (amended): on every successful resolution at most one of the five
run-mode selector flags is truthy, the `url` field is present exactly on the
server/external-URL path (the build-mode returns carry none), and any present
`url` ends in the fixed `iframe.html` suffix segment. -/
theorem c1_selector_and_url_suffix (f : Flags) (e : CliEnv) (s : Scripts)
    (r : ResolvedOptions) (h : getOptions f e s = Except.ok r) :
    (foundSingularOpts (mkOptions f e)).length ≤ 1 ∧
    r.url.isSome = serverPathCond (mkOptions f e) ∧
    ∀ u, r.url = some u → jsEndsWith u "iframe.html" = true := by
  simp only [getOptions] at h
  split at h
  · exact Except.noConfusion h
  rename_i hv
  refine And.intro (not_singular_of_validate_none hv) ?_
  simp only [selectMode] at h
  rw [buildCond_iff] at h
  split at h
  · rename_i hc
    have hS : serverPathCond (mkOptions f e) = false := by simpa using hc
    split at h
    · injection h with h2
      subst h2
      exact ⟨by simp [hS], fun u hu => Option.noConfusion hu⟩
    · split at h
      · injection h with h2
        subst h2
        exact ⟨by simp [hS], fun u hu => Option.noConfusion hu⟩
      · exact Except.noConfusion h
  · rename_i hc
    have hS : serverPathCond (mkOptions f e) = true := by
      cases hb : serverPathCond (mkOptions f e)
      · exact absurd (by simp [hb]) hc
      · rfl
    repeat' split at h
    all_goals
      first
        | exact Except.noConfusion h
        | (injection h with h2; subst h2;
           refine ⟨by simp [finalizeServer, hS], fun u hu => ?_⟩;
           simp only [finalizeServer] at hu;
           cases Option.some.inj hu;
           exact formatUrl_endsWith _)

/-- C10: in every successful resolution, `interactive` is true only when the
debug flag is not enabled, the run is not from CI, the interactive flag is
truthy, and stdout is a TTY; consequently `interactive` is false whenever
`verbose` or `fromCI` holds. -/
theorem c10_interactive_requires_tty_not_ci (f : Flags) (e : CliEnv) (s : Scripts)
    (r : ResolvedOptions) (h : getOptions f e s = Except.ok r) :
    (r.interactive = true →
      boolTruthy f.debug = false ∧ r.fromCI = false ∧ f.interactive = true ∧
        e.stdoutIsTTY = true) ∧
    ((r.verbose = true ∨ r.fromCI = true) → r.interactive = false) := by
  obtain ⟨hi, hf, hv⟩ := getOptions_ok_fields h
  rw [hi, hf, hv]
  have e1 : (mkOptions f e).interactive =
      (!boolTruthy f.debug && !(boolTruthy f.ci || optTruthy e.CI) &&
        f.interactive && e.stdoutIsTTY) := rfl
  have e2 : (mkOptions f e).fromCI = (boolTruthy f.ci || optTruthy e.CI) := rfl
  have e3 : (mkOptions f e).verbose = boolTruthy f.debug := rfl
  rw [e1, e2, e3]
  cases boolTruthy f.debug <;> cases boolTruthy f.ci || optTruthy e.CI <;>
    cases f.interactive <;> cases e.stdoutIsTTY <;> simp

/-- C2: with an external Storybook URL `http://example.com/sb` (and no other
mode flags) resolution succeeds with `noStart = true` and
`url = http://example.com/sb/iframe.html`; in general, whenever the external
URL flag is truthy, every successful resolution has `noStart = true`. -/
theorem c2_external_url_forces_noStart :
    ((getOptions { projectToken := ["t"], storybookUrl := some "http://example.com/sb" }
        {} []).map (fun r => (r.noStart, r.url)) =
      Except.ok (true, some "http://example.com/sb/iframe.html")) ∧
    ∀ (f : Flags) (e : CliEnv) (s : Scripts) (r : ResolvedOptions),
      optTruthy f.storybookUrl = true → getOptions f e s = Except.ok r →
        r.noStart = true := by
  refine ⟨by decide, ?_⟩
  intro f e s r hurl h
  simp only [getOptions] at h
  split at h
  · exact Except.noConfusion h
  have hu : optTruthy (mkOptions f e).storybookUrl = true := hurl
  have hns : noStartForced (mkOptions f e) = true := by
    simp [noStartForced, hu]
  have hsp : serverPathCond (mkOptions f e) = true := by
    simp [serverPathCond, hu]
  simp only [selectMode] at h
  rw [buildCond_iff] at h
  rw [hsp] at h
  simp only [Bool.not_true] at h
  rw [if_neg (by simp)] at h
  split at h
  · exact Except.noConfusion h
  · injection h with h2
    subst h2
    exact hns

/-- C8: whatever the environment, the overrides, and the CI detection say, when
`hasPreviousCommit()` is false the identity resolver throws the no-prior-commit
error and yields no identity. -/
theorem c8_no_prior_commit (env : CiEnv) (ov : IdentityOverrides) (q : GitQueries)
    (ci : EnvCiInfo) (h : q.hasPreviousCommit = false) :
    getCommitAndBranch env ov q ci =
      Except.error (GitError.gitOneCommit (env.GITHUB_ACTIONS == some "true")) := by
  unfold getCommitAndBranch
  rw [h]
  rfl

theorem firstSome_eq_some {l : List (Bool × OptionsError)} {err : OptionsError}
    (h : firstSome l = some err) : (true, err) ∈ l := by
  induction l with
  | nil => exact Option.noConfusion h
  | cons p rest ih =>
    obtain ⟨b, e'⟩ := p
    cases b <;> simp only [firstSome, if_true, if_false, reduceIte] at h
    · exact List.mem_cons_of_mem _ (ih h)
    · cases h
      exact List.mem_cons_self _ _

/-- Every error produced by the run-mode decision tree is one of its five
constructors (in particular never a validation-stage error). -/
theorem selectMode_error_cases {o : Options} {s : Scripts} {e : CliEnv}
    {err : OptionsError} (h : selectMode o s e = .error err) :
    (∃ n, err = .missingBuildScriptName n) ∨ err = .invalidOnlyChanged ∨
    err = .missingStorybookPort ∨ (∃ n, err = .missingScriptName n) ∨
    (∃ n, err = .unknownStorybookPort n) := by
  simp only [selectMode] at h
  repeat' split at h
  all_goals
    first
      | exact Except.noConfusion h
      | (injection h with h2; subst h2; simp)

/-- Membership in the singular-options payload is exactly truthiness of the
corresponding selector. -/
theorem mem_foundSingularOpts (o : Options) (nm : String) :
    nm ∈ foundSingularOpts o ↔ (nm, true) ∈ singularTruthy o := by
  unfold foundSingularOpts
  constructor
  · intro hm
    obtain ⟨p, hp, rfl⟩ := List.mem_map.1 hm
    obtain ⟨hmem, hb⟩ := List.mem_filter.1 hp
    obtain ⟨n, b⟩ := p
    cases b
    · exact absurd hb (by simp)
    · exact hmem
  · intro hm
    exact List.mem_map.2 ⟨(nm, true), List.mem_filter.2 ⟨hm, rfl⟩, rfl⟩

theorem validate_eq_invalidOnly_iff (o : Options) (f : Flags)
    (h1 : optTruthy o.projectToken = true) (h2 : f.patchBuild = none) :
    validate o f = some OptionsError.invalidOnly ↔
      (optTruthy f.only && !onlyRegexTest (f.only.getD "")) = true := by
  constructor
  · intro h
    have hm := firstSome_eq_some h
    simp only [validationRules, List.mem_cons, List.not_mem_nil, or_false] at hm
    rcases hm with h' | h' | h' | h' | h' | h' | h' | h' | h' | h' | h' | h' <;>
      first
        | exact (congrArg Prod.fst h').symm
        | simp at h'
  · intro hc
    unfold validate validationRules
    simp only [firstSome]
    rw [if_neg (by simp [h1]), if_neg (by simp [h2, optTruthy]),
      if_neg (by simp [h2, optTruthy]), if_pos hc]

/-- C3 counterexample: `"a/b/c"` is not of the two-segment
word-or-star `/` word-or-star shape, yet the resolver accepts it (the source
regex is an unanchored substring search). -/
theorem c3_counterexample_three_segments_accepted :
    specOnlyShape "a/b/c" = false ∧
    (getOptions { projectToken := ["t"], only := some "a/b/c" } {}
        [("build-storybook", "build-storybook")]).map (fun r => r.only) =
      Except.ok (some "a/b/c") := by decide

/-- C3 (amended): for a truthy `only` flag (token present, no patch build), the
invalid-only error is raised exactly when the value does not contain two
word-or-star characters separated by a slash: a substring test, not a
whole-value two-segment match. -/
theorem c3_invalid_only_iff_no_substring (f : Flags) (e : CliEnv) (s : Scripts)
    (h1 : optTruthy (mkOptions f e).projectToken = true)
    (h2 : f.patchBuild = none) (h3 : optTruthy f.only = true) :
    getOptions f e s = Except.error OptionsError.invalidOnly ↔
      onlyRegexTest (f.only.getD "") = false := by
  have hiff := validate_eq_invalidOnly_iff (mkOptions f e) f h1 h2
  constructor
  · intro h
    simp only [getOptions] at h
    split at h
    · rename_i e' heq
      injection h with h4
      subst h4
      have := hiff.1 heq
      rw [h3, Bool.true_and, Bool.not_eq_true'] at this
      exact this
    · rcases selectMode_error_cases h with ⟨n, hn⟩ | hn | hn | ⟨n, hn⟩ | ⟨n, hn⟩ <;>
        exact OptionsError.noConfusion hn
  · intro ht
    have hv : validate (mkOptions f e) f = some OptionsError.invalidOnly :=
      hiff.2 (by rw [h3, ht]; rfl)
    simp only [getOptions, hv]

/-- C4: once the earlier validation rules pass (token present, no patch build,
`only` passing its test when given, and `only`/`onlyChanged` not both truthy),
setting more than one of the five run-mode selectors throws the
mutually-exclusive error whose payload lists exactly the truthy selectors, and
with at most one truthy selector that error is never thrown. -/
theorem c4_singular_options_exact (f : Flags) (e : CliEnv) (s : Scripts)
    (h1 : optTruthy (mkOptions f e).projectToken = true)
    (h2 : f.patchBuild = none)
    (h4 : optTruthy f.only = true → onlyRegexTest (f.only.getD "") = true)
    (h3 : ¬(optTruthy (mkOptions f e).only = true ∧
      setFlagTruthy (mkOptions f e).onlyChanged = true)) :
    ((foundSingularOpts (mkOptions f e)).length > 1 →
      getOptions f e s =
        Except.error (OptionsError.invalidSingularOptions (foundSingularOpts (mkOptions f e)))) ∧
    ((foundSingularOpts (mkOptions f e)).length ≤ 1 →
      ∀ l, getOptions f e s ≠ Except.error (OptionsError.invalidSingularOptions l)) ∧
    (∀ nm, nm ∈ foundSingularOpts (mkOptions f e) ↔
      (nm, true) ∈ singularTruthy (mkOptions f e)) := by
  have hc4 : (optTruthy f.only && !onlyRegexTest (f.only.getD "")) = false := by
    cases hx : optTruthy f.only
    · rfl
    · simp [h4 hx]
  refine ⟨?_, ?_, fun nm => mem_foundSingularOpts _ nm⟩
  · intro hgt
    have hv : validate (mkOptions f e) f =
        some (OptionsError.invalidSingularOptions (foundSingularOpts (mkOptions f e))) := by
      unfold validate validationRules
      simp only [firstSome]
      rw [if_neg (by simp [h1]), if_neg (by simp [h2, optTruthy]),
        if_neg (by simp [h2, optTruthy]), if_neg (by simp [hc4]),
        if_pos (by simpa using hgt)]
    simp only [getOptions, hv]
  · intro hle l h
    simp only [getOptions] at h
    split at h
    · rename_i e' heq
      injection h with h5
      subst h5
      have hm := firstSome_eq_some heq
      simp only [validationRules, List.mem_cons, List.not_mem_nil, or_false] at hm
      rcases hm with h' | h' | h' | h' | h' | h' | h' | h' | h' | h' | h' | h'
      all_goals try simp at h'
      · -- rule 5: more than one selector, contradicting the length bound
        have := h'.1
        omega
      · -- rule 6: only together with onlyChanged, excluded by hypothesis
        exact h3 h'.1
    · rcases selectMode_error_cases h with ⟨n, hn⟩ | hn | hn | ⟨n, hn⟩ | ⟨n, hn⟩ <;>
        exact OptionsError.noConfusion hn

theorem jsSplit_of_not_mem {sep : Char} :
    ∀ {a : List Char}, sep ∉ a → jsSplit sep a = [a] := by
  intro a
  induction a with
  | nil => intro _; rfl
  | cons c rest ih =>
    intro h
    have hc : ¬ c = sep := fun hh => h (by rw [hh]; exact List.mem_cons_self _ _)
    have hr : sep ∉ rest := fun hm => h (List.mem_cons_of_mem _ hm)
    simp [jsSplit, hc, ih hr]

theorem jsSplit_append {sep : Char} (b : List Char) :
    ∀ (a : List Char), sep ∉ a → jsSplit sep (a ++ sep :: b) = a :: jsSplit sep b := by
  intro a
  induction a with
  | nil => intro _; simp [jsSplit]
  | cons c rest ih =>
    intro h
    have hc : ¬ c = sep := fun hh => h (by rw [hh]; exact List.mem_cons_self _ _)
    have hr : sep ∉ rest := fun hm => h (List.mem_cons_of_mem _ hm)
    rw [List.cons_append]
    simp [jsSplit, hc, ih hr]

/-- C5 (amended): a branch-name value `owner:branch` with colon-free segments
splits into branchName = the part after the last colon and ownerName = the
segment immediately before that colon (for multi-colon values the owner is
only that middle segment, not everything before the last colon). -/
theorem c5_branch_owner_split (f : Flags) (e : CliEnv) (owner branch : String)
    (hb : f.branchName = some (owner ++ ":" ++ branch))
    (ho : ':' ∉ owner.data) (hbr : ':' ∉ branch.data) :
    (mkOptions f e).branchName = branch ∧ (mkOptions f e).ownerName = some owner := by
  have e1 : (mkOptions f e).branchName = (branchSplit (f.branchName.getD "")).1 := rfl
  have e2 : (mkOptions f e).ownerName = (branchSplit (f.branchName.getD "")).2 := rfl
  have hcolon : (":" : String).data = [':'] := rfl
  have hd : (owner ++ ":" ++ branch).data = owner.data ++ ':' :: branch.data := by
    simp [hcolon]
  have hsplit : jsSplit ':' ((owner ++ ":" ++ branch).data) = [owner.data, branch.data] := by
    rw [hd, jsSplit_append _ _ ho, jsSplit_of_not_mem hbr]
  constructor
  · rw [e1, hb]
    simp only [Option.getD_some, branchSplit]
    rw [hsplit]
    rfl
  · rw [e2, hb]
    simp only [Option.getD_some, branchSplit]
    rw [hsplit]
    rfl

@[simp] theorem optTruthy_none : optTruthy none = false := rfl

@[simp] theorem setFlagTruthy_none : setFlagTruthy none = false := rfl

theorem find?_key_of_nodup :
    ∀ {l : Scripts} {k v : String}, (l.map Prod.fst).Nodup → (k, v) ∈ l →
      l.find? (fun p => p.1 == k) = some (k, v) := by
  intro l
  induction l with
  | nil => intro k v _ hm; exact absurd hm (List.not_mem_nil _)
  | cons a rest ih =>
    intro k v hnd hm
    rw [List.map_cons] at hnd
    have hnd' := List.nodup_cons.1 hnd
    rcases List.mem_cons.1 hm with rfl | hm'
    · rw [List.find?_cons_of_pos _ (by simp)]
    · have hak : ¬ a.1 = k := by
        intro hh
        exact hnd'.1 (hh ▸ List.mem_map_of_mem Prod.fst hm')
      rw [List.find?_cons_of_neg _ (by simpa using hak)]
      exact ih hnd'.2 hm'

/-- A command that starts with `build-storybook` is a nonempty string. -/
theorem ne_empty_of_starts_build {v : String}
    (h : jsStartsWith v "build-storybook" = true) : (v == "") = false := by
  unfold jsStartsWith at h
  obtain ⟨r, hr⟩ := (listPrefix_iff _ _).1 h
  have : v.data ≠ [] := by rw [hr]; simp
  rcases hv : (v == "") with _ | _
  · rfl
  · exact absurd (congrArg String.data (eq_of_beq hv)) this

/-- C6: in build mode (no server-mode flag, no static directory, no explicit
build-script flag, all validation-relevant flags clear), the conventional
`build-storybook` script is selected when present and truthy; otherwise the key
of the first script whose command starts with `build-storybook` is adopted; and
when no usable script exists the resolver throws the missing-build-script
error naming the attempted conventional name. -/
theorem c6_build_script_resolution (f : Flags) (e : CliEnv) (s : Scripts)
    (hnd : (s.map Prod.fst).Nodup)
    (htok : optTruthy (mkOptions f e).projectToken = true)
    (hpatch : f.patchBuild = none) (honly : f.only = none)
    (huntr : f.untraced = []) (hext : f.externals = [])
    (hjunit : f.junitReport = none) (hsn : f.scriptName = none) (hexec : f.exec = none)
    (hnostart : boolTruthy f.doNotStart = false) (hurl : f.storybookUrl = none)
    (hport : f.storybookPort = none) (hbdir : f.storybookBuildDir = [])
    (hbsn : f.buildScriptName = none) :
    (scriptTruthy s "build-storybook" = true →
      (getOptions f e s).map (fun r => r.buildScriptName) =
        Except.ok (some "build-storybook")) ∧
    (scriptTruthy s "build-storybook" = false →
      ∀ k v, s.find? (fun p => jsStartsWith p.2 "build-storybook") = some (k, v) →
        (k == "") = false →
        (getOptions f e s).map (fun r => r.buildScriptName) = Except.ok (some k)) ∧
    (scriptTruthy s "build-storybook" = false →
      s.find? (fun p => jsStartsWith p.2 "build-storybook") = none →
      getOptions f e s = Except.error (OptionsError.missingBuildScriptName "build-storybook")) := by
  have hsn' : (mkOptions f e).scriptName = none := by
    show trueIfSet f.scriptName = none
    rw [hsn]; rfl
  have hexec' : (mkOptions f e).exec = none := hexec
  have hurl' : (mkOptions f e).storybookUrl = none := hurl
  have hport' : (mkOptions f e).port = none := hport
  have hbdir' : (mkOptions f e).storybookBuildDir = none := by
    show takeLast f.storybookBuildDir = none
    rw [hbdir]; rfl
  have hbsn' : (mkOptions f e).buildScriptName = none := hbsn
  have honlyc' : (mkOptions f e).only = none := honly
  have hns' : (mkOptions f e).noStart = false := hnostart
  have hnsf : noStartForced (mkOptions f e) = false := by
    simp [noStartForced, optTruthy, hurl', hns']
  have hfs : foundSingularOpts (mkOptions f e) = [] := by
    simp [foundSingularOpts, singularTruthy, optTruthy, setFlagTruthy, hsn', hexec',
      hurl', hbdir', hbsn']
  have huntr' : (mkOptions f e).untraced = none := by
    show undefinedIfEmpty f.untraced = none
    rw [huntr]; rfl
  have hext' : (mkOptions f e).externals = none := by
    show undefinedIfEmpty f.externals = none
    rw [hext]; rfl
  have hjunit' : (mkOptions f e).junitReport = none := by
    show trueIfSet f.junitReport = none
    rw [hjunit]; rfl
  have hv : validate (mkOptions f e) f = none := by
    rw [validate, firstSome_none_iff]
    intro p hp
    simp only [validationRules, List.mem_cons, List.not_mem_nil, or_false] at hp
    rcases hp with rfl | rfl | rfl | rfl | rfl | rfl | rfl | rfl | rfl | rfl | rfl | rfl <;>
      simp [htok, hpatch, honly, hfs, honlyc', huntr', hext', hjunit', hnsf, hsn', junitBad]
  have hcond : (!setFlagTruthy (mkOptions f e).scriptName &&
      !optTruthy (mkOptions f e).exec && !noStartForced (mkOptions f e) &&
      !optTruthy (mkOptions f e).storybookUrl && !optTruthy (mkOptions f e).port) = true := by
    simp [hsn', hexec', hnsf, hurl', hport']
  have hnotbdir : optTruthy (mkOptions f e).storybookBuildDir = false := by
    simp [hbdir']
  have hgo : getOptions f e s = selectMode (mkOptions f e) s e := by
    simp only [getOptions, hv]
  refine ⟨?_, ?_, ?_⟩
  · intro hbs
    have hres : resolveBuildScriptName (mkOptions f e) s = "build-storybook" := by
      rw [resolveBuildScriptName, hbsn', if_pos hbs]
    rw [hgo]
    simp only [selectMode]
    rw [hcond, hnotbdir, hres]
    simp [hbs, Except.map]
  · intro hbs k v hfind hk
    have hbs' : ¬ (scriptTruthy s "build-storybook" = true) := by simp [hbs]
    have hmem := List.mem_of_find?_eq_some hfind
    have hpred := List.find?_some hfind
    have hvne : (v == "") = false := ne_empty_of_starts_build hpred
    have hlook : lookupScript s k = some v := by
      rw [lookupScript, find?_key_of_nodup hnd hmem]
      rfl
    have hst : scriptTruthy s k = true := by
      rw [scriptTruthy, hlook]
      simp [optTruthy, hvne]
    have hres : resolveBuildScriptName (mkOptions f e) s = k := by
      rw [resolveBuildScriptName, hbsn', if_neg hbs', hfind]
      simp [hk]
    rw [hgo]
    simp only [selectMode]
    rw [hcond, hnotbdir, hres]
    simp [hst, hk, Except.map]
  · intro hbs hfind
    have hbs' : ¬ (scriptTruthy s "build-storybook" = true) := by simp [hbs]
    have hres : resolveBuildScriptName (mkOptions f e) s = "build-storybook" := by
      rw [resolveBuildScriptName, hbsn', if_neg hbs', hfind]
    rw [hgo]
    simp only [selectMode]
    rw [hcond, hnotbdir, hres]
    simp [hbs]

theorem notHead_eq_some {b : Option String} {x : String} (h : notHead b = some x) :
    b = some x ∧ x ≠ "" ∧ x ≠ "HEAD" := by
  cases b with
  | none => exact Option.noConfusion h
  | some s =>
    simp only [notHead] at h
    split at h
    · rename_i hc
      injection h with h2
      subst h2
      simp only [Bool.and_eq_true, Bool.not_eq_true'] at hc
      exact ⟨rfl, ne_of_beq_false hc.1, ne_of_beq_false hc.2⟩
    · exact Option.noConfusion h

theorem fallbackBranch_of_some {env : CiEnv} {ci : EnvCiInfo} {x : String}
    (h : fallbackBranch env ci = some x) : x ≠ "" ∧ x ≠ "HEAD" := by
  unfold fallbackBranch at h
  obtain ⟨a, _, ha⟩ := List.exists_of_findSome?_eq_some h
  exact (notHead_eq_some ha).2

/-- C9 (amended): when the branch is still the detached-HEAD placeholder after
overrides and provider corrections, the branch is resolved through the fixed
fallback chain (CI PR branch, CI branch, `HEAD`, `GERRIT_BRANCH`, `GITHUB_REF`,
`CI_BRANCH`), the selected value then undergoing the `origin/` strip; the
result equals the placeholder exactly when every fallback is absent or the
placeholder, or when the selected fallback is literally `origin/HEAD` and the
strip applies. -/
theorem c9_detached_head_fallback (env : CiEnv) (ov : IdentityOverrides) (q : GitQueries)
    (ci : EnvCiInfo) (c1 : Option String) (b1 : String) (s1 : Option String)
    (hprev : q.hasPreviousCommit = true)
    (hstep : providerStep env q ov = Except.ok (c1, b1, s1))
    (hdet : notHead (some b1) = none) :
    ((getCommitAndBranch env ov q ci).map CommitIdentity.branch =
      Except.ok (stripOriginIf (!optTruthy ov.branchName && !isFromEnvVariable env)
        ((fallbackBranch env ci).getD "HEAD"))) ∧
    (stripOriginIf (!optTruthy ov.branchName && !isFromEnvVariable env)
        ((fallbackBranch env ci).getD "HEAD") = "HEAD" ↔
      (fallbackBranch env ci = none ∨
        (fallbackBranch env ci = some "origin/HEAD" ∧
          (!optTruthy ov.branchName && !isFromEnvVariable env) = true))) := by
  constructor
  · unfold getCommitAndBranch
    rw [hprev, hstep]
    simp only [Bool.not_true, hdet, Option.isNone_none, if_pos rfl, Except.map]
    rfl
  · have horigin : ("origin/" : String).data.length = 7 := by decide
    have hheadpre : jsStartsWith "HEAD" "origin/" = false := by decide
    cases hf : fallbackBranch env ci with
    | none =>
      simp only [Option.getD_none]
      rw [stripOriginIf, if_neg (by simp [hheadpre])]
      simp
    | some x =>
      obtain ⟨hxe, hxh⟩ := fallbackBranch_of_some hf
      simp only [Option.getD_some]
      rw [stripOriginIf]
      cases hstrip : (!optTruthy ov.branchName && !isFromEnvVariable env)
      · rw [if_neg (by simp)]
        simp [hxh]
      · rw [Bool.true_and]
        cases hpre : jsStartsWith x "origin/"
        · rw [if_neg (by simp)]
          constructor
          · intro hx
            exact absurd hx hxh
          · rintro (h | ⟨hx, -⟩)
            · exact Option.noConfusion h
            · rw [Option.some.injEq] at hx
              subst hx
              exact absurd hpre (by decide)
        · rw [if_pos rfl]
          obtain ⟨r, hr⟩ := (listPrefix_iff _ _).1 hpre
          constructor
          · intro hmk
            have hrd : x.data.drop 7 = r := by
              rw [hr]
              exact List.drop_left' horigin
            rw [hrd] at hmk
            have hx : x = "origin/HEAD" := by
              apply String.ext
              rw [hr]
              have hr2 : r = ("HEAD" : String).data := congrArg String.data hmk
              rw [hr2]
              decide
            exact Or.inr ⟨by rw [hx], rfl⟩
          · rintro (h | ⟨hx, -⟩)
            · exact Option.noConfusion h
            · rw [Option.some.injEq] at hx
              subst hx
              decide

/-- C7 counterexample: with the manifest `{storybook: "start-storybook -p 9009"}`
and no run-mode flags at all, the resolver enters build mode and throws the
missing-build-script error instead of inferring the port. -/
theorem c7_counterexample_no_mode_flags_is_build_mode :
    getOptions { projectToken := ["t"] } {} [("storybook", "start-storybook -p 9009")] =
      Except.error (OptionsError.missingBuildScriptName "build-storybook") := by decide

/-- C7 (amended): with the server-script flag given (bare), the manifest script
`storybook: "start-storybook -p 9009"` and no port flag, resolution enters
server mode, infers port 9009 from the script text, and produces
`url = http://localhost:9009/iframe.html` without `noStart`. -/
theorem c7_server_script_port_inference :
    getStorybookConfiguration "start-storybook -p 9009" "-p" (some "--port") =
      some "9009" ∧
    (getOptions { projectToken := ["t"], scriptName := some "" } {}
        [("storybook", "start-storybook -p 9009")]).map
        (fun r => (r.url, r.noStart, r.scriptName)) =
      Except.ok (some "http://localhost:9009/iframe.html", false,
        some (SetFlag.value "storybook")) := by
  constructor
  · decide
  · decide

/-- C1 counterexample: with a static build directory the resolver succeeds, yet
the result carries no `url` field at all, refuting "url is always present and
ends in the suffix on successful resolution"; and with only `doNotStart` and a
port the resolver succeeds with zero truthy run-mode selectors, refuting
"exactly one selector is authoritative". -/
theorem c1_counterexample_builddir_has_no_url :
    ((getOptions c1flags {} []).map (fun r => r.url) = Except.ok none) ∧
    ((getOptions c1flagsNoSelector {} []).map
        (fun r => ((foundSingularOpts r.toOptions).length, r.url)) =
      Except.ok (0, some "http://localhost:7007/iframe.html")) := by decide

theorem c1_selector_and_url_suffix_witness :
    getOptions c1wflags {} [] = Except.ok c1wres ∧
    ((foundSingularOpts (mkOptions c1wflags {})).length ≤ 1 ∧
      c1wres.url.isSome = serverPathCond (mkOptions c1wflags {}) ∧
      ∀ u, c1wres.url = some u → jsEndsWith u "iframe.html" = true) :=
  ⟨by decide, c1_selector_and_url_suffix c1wflags {} [] c1wres (by decide)⟩

theorem c2_external_url_forces_noStart_witness :
    optTruthy c2wflags.storybookUrl = true ∧ getOptions c2wflags {} [] = Except.ok c2wres ∧
    c2wres.noStart = true :=
  ⟨by decide, by decide,
    c2_external_url_forces_noStart.2 c2wflags {} [] c2wres (by decide) (by decide)⟩

theorem c10_interactive_requires_tty_not_ci_witness :
    getOptions c10wflags {} [] = Except.ok c10wres ∧
    ((c10wres.interactive = true →
      boolTruthy c10wflags.debug = false ∧ c10wres.fromCI = false ∧
        c10wflags.interactive = true ∧ (({} : CliEnv)).stdoutIsTTY = true) ∧
    ((c10wres.verbose = true ∨ c10wres.fromCI = true) → c10wres.interactive = false)) :=
  ⟨by decide, c10_interactive_requires_tty_not_ci c10wflags {} [] c10wres (by decide)⟩

theorem c8_no_prior_commit_witness :
    c8wq.hasPreviousCommit = false ∧
    getCommitAndBranch {} {} c8wq {} = Except.error (GitError.gitOneCommit false) :=
  ⟨rfl, c8_no_prior_commit {} {} c8wq {} rfl⟩

/-- C5 counterexample: for `o:x:b` the owner is only the middle segment `x`,
not `o:x` (everything before the last colon) as the claim states. -/
theorem c5_counterexample_multi_colon_owner :
    ((getOptions c5ceflags {} [("build-storybook", "build-storybook")]).map
        (fun r => (r.branchName, r.ownerName)) = Except.ok ("b", some "x")) ∧
    (some "x" : Option String) ≠ some "o:x" := by decide

theorem c5_branch_owner_split_witness :
    c5wflags.branchName = some ("owner" ++ ":" ++ "branch") ∧
    (':' ∉ ("owner" : String).data) ∧ (':' ∉ ("branch" : String).data) ∧
    ((mkOptions c5wflags {}).branchName = "branch" ∧
      (mkOptions c5wflags {}).ownerName = some "owner") :=
  ⟨by decide, by decide, by decide,
    c5_branch_owner_split c5wflags {} "owner" "branch" (by decide) (by decide) (by decide)⟩

theorem c3_invalid_only_iff_no_substring_witness :
    optTruthy (mkOptions c3wflags {}).projectToken = true ∧
    c3wflags.patchBuild = none ∧ optTruthy c3wflags.only = true ∧
    (getOptions c3wflags {} [] = Except.error OptionsError.invalidOnly ↔
      onlyRegexTest (c3wflags.only.getD "") = false) :=
  ⟨by decide, rfl, by decide,
    c3_invalid_only_iff_no_substring c3wflags {} [] (by decide) rfl (by decide)⟩

theorem c4_singular_options_exact_witness :
    (foundSingularOpts (mkOptions c4wflags {})).length > 1 ∧
    getOptions c4wflags {} [] =
      Except.error (OptionsError.invalidSingularOptions ["--exec", "--storybook-url"]) :=
  ⟨by decide, by
    have h := (c4_singular_options_exact c4wflags {} [] (by decide) rfl (by decide)
      (by decide)).1 (by decide)
    exact h.trans (by decide)⟩

theorem c6_build_script_resolution_witness :
    scriptTruthy c6wscripts "build-storybook" = true ∧
    (getOptions c6wflags {} c6wscripts).map (fun r => r.buildScriptName) =
      Except.ok (some "build-storybook") :=
  ⟨by decide,
    (c6_build_script_resolution c6wflags {} c6wscripts (by decide) (by decide) rfl rfl rfl rfl
      rfl rfl rfl (by decide) rfl rfl rfl rfl).1 (by decide)⟩

/-- C9 counterexample: the CI-detected PR branch `origin/HEAD` is present and is
not the placeholder, yet the resolved branch still comes out as the literal
placeholder (the `origin/` strip reduces it to `HEAD`). -/
theorem c9_counterexample_origin_head :
    notHead (some "origin/HEAD") = some "origin/HEAD" ∧
    (getCommitAndBranch {} {} c9ceq { prBranch := some "origin/HEAD" }).map
      CommitIdentity.branch = Except.ok "HEAD" := by decide

theorem c9_detached_head_fallback_witness :
    c9wq.hasPreviousCommit = true ∧
    providerStep {} c9wq {} = Except.ok (some "c0", "HEAD", none) ∧
    notHead (some "HEAD") = none ∧
    ((getCommitAndBranch {} {} c9wq c9wci).map CommitIdentity.branch =
      Except.ok (stripOriginIf (!optTruthy ({} : IdentityOverrides).branchName &&
        !isFromEnvVariable {}) ((fallbackBranch {} c9wci).getD "HEAD"))) :=
  ⟨rfl, by decide, by decide,
    (c9_detached_head_fallback {} {} c9wq c9wci (some "c0") "HEAD" none rfl (by decide)
      (by decide)).1⟩

end Chromatic
